import Mathlib

/-!
Verification of the crabzilla function-import bridge.

The development shallowly embeds the two source crates:

* `crabzilla/src/lib.rs` — the runtime half: the `Value` union crossing the
  native/script boundary (re-exported `serde_json` values), the argument
  extraction `get_args`, the uniform adapter constructor `create_sync_fn`,
  the `Runtime` registry (`import`, `importing_finished`) and the generated
  JavaScript glue source.
* `import_fn/src/lib.rs` — the build-time half: the `#[import_fn]` attribute
  transform (`import_fn`), its literal validation (`validate_literal`),
  attribute parsing (`parse_meta`) and the two code-generation branches
  (`quote_without_return` for `-> Value` bodies, `quote_with_return` for
  unit bodies).

Rust side effects are embedded by explicit state passing over an arbitrary
state type `σ`; a panicking path (`unreachable!`, and the `todo!` reached by
macro expansion of an `async fn`) is embedded as a distinguished outcome
(`Option.none`, `TransformOutput.unimplemented`) rather than a value.
-/

/-- The dynamic value union crossing the native/script boundary.  Mirrors the
`serde_json::value::Value` re-exported by the crate: null, boolean, number,
string, array, and object with ordered string keys.  The numeric payload is
abstracted to `Int`; no claim inspects numeric contents. -/
inductive Value where
  | null
  | bool (b : Bool)
  | num (n : Int)
  | str (s : String)
  | arr (items : List Value)
  | obj (fields : List (String × Value))

/-- Key lookup in a JSON object's field list, mirroring `map.get("args")` on
the serde object map: the value bound to the first matching key. -/
def mapGet : List (String × Value) → String → Option Value
  | [], _ => none
  | (k, v) :: rest, key => if k = key then some v else mapGet rest key

/-- `get_args` from `crabzilla/src/lib.rs`: extracts the ordered argument
sequence from an engine call payload.  The source ends in `unreachable!()`
when the payload is not an object carrying an `args` array; that panicking
branch is embedded as `none`. -/
def get_args (value : Value) : Option (List Value) :=
  match value with
  | Value.obj map =>
    match mapGet map "args" with
    | some (Value.arr args) => some args
    | _ => none
  | _ => none

/-- The error value carried on the `Err` side of an adapter result, mirroring
`deno_core::error::custom_error`'s (class, message) payload. -/
structure AnyError where
  cls : String
  message : String
deriving DecidableEq

/-- `deno_core::error::custom_error`, as re-exported and used by the `throw!`
macro: builds an error from a class name and a message. -/
def custom_error (cls message : String) : AnyError := ⟨cls, message⟩

/-- `ImportedFn` from `crabzilla/src/lib.rs`: the registered adapter together
with its name, optional scope and synchronicity flag.  `op_fn` is the engine
op produced by `json_op_sync`: it receives the raw call payload and the host
state `σ`, and yields the updated state and either a result or `none` for the
`unreachable!` panic inside `get_args`. -/
structure ImportedFn (σ : Type) where
  op_fn : Value → σ → σ × Option (Except AnyError Value)
  name : String
  scope : Option String
  sync : Bool

/-- `create_sync_fn` from `crabzilla/src/lib.rs`: wraps a native closure of
the uniform shape `Vec<Value> -> Result<Value, AnyError>` (side effects made
explicit through `σ`) into an `ImportedFn` whose op extracts the arguments
with `get_args` and invokes the closure. -/
def create_sync_fn {σ : Type} (imported_fn : List Value → σ → σ × Except AnyError Value)
    (name : String) (scope : Option String) : ImportedFn σ :=
  { op_fn := fun value s =>
      match get_args value with
      | some args => ((imported_fn args s).1, some (imported_fn args s).2)
      | none => (s, none)
  , name := name
  , scope := scope
  , sync := true }

/-- The closure body synthesized by `quote_with_return` for a unit-returning
native function: run the original block (which can only exit early with an
error), then yield `Ok(Value::Null)`.  The block is embedded as a state
transformer returning `some err` on an early `Err` exit and `none` on normal
completion. -/
def unit_closure {σ : Type} (block : List Value → σ → σ × Option AnyError) :
    List Value → σ → σ × Except AnyError Value :=
  fun args s =>
    ((block args s).1,
      match (block args s).2 with
      | some err => Except.error err
      | none => Except.ok Value.null)

/-- Runtime meaning of the factory emitted by `quote_with_return` (the
unit-returning branch): a zero-argument function producing
`create_sync_fn(|args| { #block Ok(Value::Null) }, name, scope)`. -/
def quote_with_return_fn {σ : Type} (block : List Value → σ → σ × Option AnyError)
    (name : String) (scope : Option String) : Unit → ImportedFn σ :=
  fun _ => create_sync_fn (unit_closure block) name scope

/-- Runtime meaning of the factory emitted by `quote_without_return` (the
Value-returning branch): a zero-argument function producing
`create_sync_fn(|args| Ok(#block), name, scope)`.  The block already has the
uniform fallible shape because the body can exit early with `Err`. -/
def quote_without_return_fn {σ : Type} (block : List Value → σ → σ × Except AnyError Value)
    (name : String) (scope : Option String) : Unit → ImportedFn σ :=
  fun _ => create_sync_fn block name scope

/-- `ImportedName` from `crabzilla/src/lib.rs`: the registry record kept for
glue generation. -/
structure ImportedName where
  name : String
  scope : Option String
  sync : Bool
deriving DecidableEq

/-- The `Runtime` registry state.  The embedded engine's op registration
table (`JsRuntime::register_op`) is modeled as the ordered list
`registered_ops` of (key, op) registration events. -/
structure Runtime (σ : Type) where
  imported_names : List ImportedName
  scopes : List String
  registered_ops : List (String × (Value → σ → σ × Option (Except AnyError Value)))

/-- `Runtime::new`: empty registry. -/
def Runtime.new (σ : Type) : Runtime σ :=
  { imported_names := [], scopes := [], registered_ops := [] }

/-- `Runtime::import`: invokes the factory, pushes the scope (if any) onto
`scopes`, registers the op with the engine under the function's bare `name`,
and appends the `ImportedName` record. -/
def Runtime.«import» {σ : Type} (rt : Runtime σ) (imported_fn : Unit → ImportedFn σ) :
    Runtime σ :=
  let import_fn := imported_fn ()
  { imported_names :=
      rt.imported_names ++ [⟨import_fn.name, import_fn.scope, import_fn.sync⟩]
  , scopes :=
      match import_fn.scope with
      | some scope => rt.scopes ++ [scope]
      | none => rt.scopes
  , registered_ops := rt.registered_ops ++ [(import_fn.name, import_fn.op_fn)] }

/-- Character escaping performed by Rust's `{:?}` (Debug) formatting of
strings, for the escapes exercised by this code: quote, backslash, newline,
carriage return and tab. -/
def escChar (c : Char) : List Char :=
  if c = '"' then ['\\', '"']
  else if c = '\\' then ['\\', '\\']
  else if c = '\n' then ['\\', 'n']
  else if c = '\r' then ['\\', 'r']
  else if c = '\t' then ['\\', 't']
  else [c]

/-- Escape every character of a string's character list. -/
def escChars : List Char → List Char
  | [] => []
  | c :: rest => escChar c ++ escChars rest

/-- Inverse of the two-character escape codes used by `escChar`. -/
def unescChar (c : Char) : Char :=
  if c = 'n' then '\n' else if c = 'r' then '\r' else if c = 't' then '\t' else c

/-- Decoder for `escChars` output: a backslash consumes the following code
character, every other character stands for itself. -/
def unescChars : List Char → List Char
  | [] => []
  | [c] => if c = '\\' then [] else [c]
  | c :: d :: rest =>
    if c = '\\' then unescChar d :: unescChars rest
    else c :: unescChars (d :: rest)

/-- Rust's `format!("{:?}", s)` for a string `s`: the escaped characters
wrapped in double quotes.  This is how `importing_finished` interpolates
scope and function names into the glue source. -/
def rustDebugString (s : String) : String :=
  ⟨'"' :: (escChars s.data ++ ['"'])⟩

/-- One line of the glue's scope-definitions section:
`        window["<scope>"] = {};` followed by a newline. -/
def scope_line (scope : String) : String :=
  "        window[" ++ rustDebugString scope ++ "] = \x7b\x7d;\n"

/-- The assignment target of an imported function's dispatch stub:
`window["<scope>"]["<name>"]` when scoped, `window["<name>"]` otherwise. -/
def stub_target (i : ImportedName) : String :=
  match i.scope with
  | some scope => "window[" ++ rustDebugString scope ++ "][" ++ rustDebugString i.name ++ "]"
  | none => "window[" ++ rustDebugString i.name ++ "]"

/-- The engine primitive the stub calls: `jsonOpSync` for synchronous
imports, `jsonOpAsync` otherwise. -/
def stub_command (i : ImportedName) : String :=
  if i.sync then "jsonOpSync" else "jsonOpAsync"

/-- One line of the glue's name-definitions section:
`        <target> = (...args) => Deno.core.<command>("<name>", {args});`
followed by a newline.  The op key passed to the engine call is the bare
`name`, formatted with `{:?}`. -/
def stub_line (i : ImportedName) : String :=
  "        " ++ stub_target i ++ " = (...args) => Deno.core." ++ stub_command i ++
    "(" ++ rustDebugString i.name ++ ", \x7bargs\x7d);\n"

/-- The fixed prefix of the generated glue source, up to and including the
`registerErrorClass` line. -/
def glue_header : String :=
  "\n\"use strict\";\n(\n    (window) => \x7b\n        Deno.core.ops();\n        Deno.core.registerErrorClass(\"Error\", window.Error);\n"

/-- The fixed suffix closing the glue's IIFE applied to `this`. -/
def glue_footer : String := "    \x7d\n)(this);"

/-- The glue source synthesized by `Runtime::importing_finished`: the header,
then one `scope_line` per entry of `scopes` accumulated left to right, then
one `stub_line` per entry of `imported_names` accumulated left to right, then
the footer.  (The source then hands this string to `JsRuntime::execute`; the
engine execution itself is external.) -/
def importing_finished {σ : Type} (rt : Runtime σ) : String :=
  let scope_definitions := rt.scopes.foldl (fun acc scope => acc ++ scope_line scope) ""
  let name_definitions := rt.imported_names.foldl (fun acc i => acc ++ stub_line i) ""
  glue_header ++ scope_definitions ++ name_definitions ++ glue_footer

/-- Concatenation of a list of strings, used to state the glue layout. -/
def joinAll : List String → String
  | [] => ""
  | s :: rest => s ++ joinAll rest

/-- Rust's `char::is_ascii`: code point at most `0x7F`. -/
def rustIsAscii (c : Char) : Bool := c.val ≤ 0x7F

/-- Rust's `char::is_whitespace`: membership in the Unicode `White_Space`
set. -/
def rustIsWhitespace (c : Char) : Bool :=
  (0x9 ≤ c.val && c.val ≤ 0xD) || c.val == 0x20 || c.val == 0x85 || c.val == 0xA0 ||
  c.val == 0x1680 || (0x2000 ≤ c.val && c.val ≤ 0x200A) || c.val == 0x2028 ||
  c.val == 0x2029 || c.val == 0x202F || c.val == 0x205F || c.val == 0x3000

/-- The character loop of `validate_literal`: reject on the first non-ASCII
or whitespace character. -/
def validate_chars : List Char → Bool
  | [] => true
  | c :: rest =>
    if !rustIsAscii c then false
    else if rustIsWhitespace c then false
    else validate_chars rest

/-- `validate_literal` from `import_fn/src/lib.rs`: a `name`/`scope` literal
is valid when non-empty and every character is ASCII and not whitespace. -/
def validate_literal (name : String) : Bool :=
  if name.isEmpty then false else validate_chars name.data

/-- A `syn::Lit` attribute value: a string literal, or any other literal kind
(all rejected alike as `Unsupported value`). -/
inductive Lit where
  | str (value : String)
  | otherLit
deriving DecidableEq

/-- A `syn::NestedMeta` attribute item: a `path = literal` pair, any other
`Meta` form (`Path`, `List`), or a bare nested literal. -/
inductive NestedMeta where
  | nameValue (path : String) (lit : Lit)
  | otherMeta
  | litNested
deriving DecidableEq

/-- The source span a `compile_error!` diagnostic is attached to by the
`error` helper: a string literal's span, some other attribute item, the
parameter list, or the return-type clause. -/
inductive SpanTarget where
  | litStr (value : String)
  | metaItem
  | inputsSpan (tokens : String)
  | outputSpan (tokens : String)
deriving DecidableEq

/-- A build-time diagnostic: the span it points at and its message. -/
structure Diagnostic where
  target : SpanTarget
  message : String
deriving DecidableEq

/-- `ImportOptions` from `import_fn/src/lib.rs`: the `scope` and `name`
overrides collected from the attribute list (both default to `None`). -/
structure ImportOptions where
  scope : Option String := none
  name : Option String := none
deriving DecidableEq

/-- The loop body of `parse_meta`: fold the attribute items left to right,
recording validated `scope`/`name` string literals and stopping at the first
offending item with the corresponding diagnostic. -/
def parse_meta_loop (options : ImportOptions) : List NestedMeta → Except Diagnostic ImportOptions
  | [] => Except.ok options
  | NestedMeta.nameValue path lit :: rest =>
    if path = "scope" then
      match lit with
      | Lit.str s =>
        if validate_literal s then parse_meta_loop { options with scope := some s } rest
        else Except.error ⟨SpanTarget.litStr s, "Invalid scope"⟩
      | Lit.otherLit => Except.error ⟨SpanTarget.metaItem, "Unsupported value"⟩
    else if path = "name" then
      match lit with
      | Lit.str s =>
        if validate_literal s then parse_meta_loop { options with name := some s } rest
        else Except.error ⟨SpanTarget.litStr s, "Invalid name"⟩
      | Lit.otherLit => Except.error ⟨SpanTarget.metaItem, "Unsupported value"⟩
    else Except.error ⟨SpanTarget.metaItem, "Unsupported meta"⟩
  | NestedMeta.otherMeta :: _ => Except.error ⟨SpanTarget.metaItem, "Unsupported meta"⟩
  | NestedMeta.litNested :: _ => Except.error ⟨SpanTarget.metaItem, "Unsupported meta"⟩

/-- `parse_meta` from `import_fn/src/lib.rs`, starting from the default
options. -/
def parse_meta (metas : List NestedMeta) : Except Diagnostic ImportOptions :=
  parse_meta_loop {} metas

/-- Which adapter wrapping the transform selected: `quote_without_return`
wraps a `-> Value` body as `Ok(#block)`; `quote_with_return` wraps a unit
body as `#block Ok(Value::Null)`. -/
inductive AdapterKind where
  | valueReturning
  | unitReturning
deriving DecidableEq

/-- The result of expanding `#[import_fn]` on one declaration: the factory
function it emits (identifier, wrapping, resolved name, scope), a
`compile_error!` diagnostic, or the `todo!()` panic reached for an `async fn`
(a loud build failure, not generated code). -/
inductive TransformOutput where
  | factory (ident : String) (kind : AdapterKind) (name : String) (scope : Option String)
  | compileError (d : Diagnostic)
  | unimplemented
deriving DecidableEq

/-- The exact parameter-list token strings accepted by the `match` in
`import_fn`: empty, or the `args : Vec<Value>` parameter in each recognized
path spelling of `Vec` and `Value`. -/
def legal_inputs : List String :=
  ["",
   "args : Vec < Value >",
   "args : Vec < crabzilla :: Value >",
   "args : std :: vec :: Vec < Value >",
   "args : std :: vec :: Vec < crabzilla :: Value >",
   "args : :: vec :: Vec < Value >",
   "args : :: vec :: Vec < crabzilla :: Value >"]

/-- The return-type token strings routed to `quote_without_return`
(Value-returning bodies). -/
def value_outputs : List String := ["-> crabzilla :: Value", "-> Value"]

/-- The return-type token strings routed to `quote_with_return`
(unit-returning bodies): explicit `-> ()` or no return clause. -/
def unit_outputs : List String := ["-> ()", ""]

/-- `quote_without_return`: emits the factory for a Value-returning body,
resolving the script name as the `name` override or else the function's own
identifier. -/
def quote_without_return (ident : String) (crab_meta : ImportOptions) : TransformOutput :=
  TransformOutput.factory ident AdapterKind.valueReturning
    (crab_meta.name.getD ident) crab_meta.scope

/-- `quote_with_return`: emits the factory for a unit-returning body, with
the same name resolution. -/
def quote_with_return (ident : String) (crab_meta : ImportOptions) : TransformOutput :=
  TransformOutput.factory ident AdapterKind.unitReturning
    (crab_meta.name.getD ident) crab_meta.scope

/-- The `#[import_fn]` input read from the decorated `ItemFn`: identifier,
token text of the parameter list, the `async` flag, token text of the return
type, and the parsed attribute arguments. -/
structure FnInput where
  ident : String
  inputsTokens : String
  isAsync : Bool
  outputTokens : String
  attrs : List NestedMeta
deriving DecidableEq

/-- `import_fn` from `import_fn/src/lib.rs`: parse the attribute arguments,
check the parameter-list tokens against the accepted shapes, dispatch on
asyncness (`todo!()` for `async fn`), then dispatch on the return-type tokens
to the matching code-generation branch or reject with a diagnostic on the
offending span. -/
def import_fn (input : FnInput) : TransformOutput :=
  match parse_meta input.attrs with
  | Except.error e => TransformOutput.compileError e
  | Except.ok crab_meta =>
    if input.inputsTokens ∈ legal_inputs then
      if input.isAsync then
        TransformOutput.unimplemented
      else
        if input.outputTokens ∈ value_outputs then
          quote_without_return input.ident crab_meta
        else if input.outputTokens ∈ unit_outputs then
          quote_with_return input.ident crab_meta
        else
          TransformOutput.compileError
            ⟨SpanTarget.outputSpan input.outputTokens,
             "Illegal return type, should be empty or \"Value\""⟩
    else
      TransformOutput.compileError
        ⟨SpanTarget.inputsSpan input.inputsTokens,
         "Illegal arguments, should be empty or \"args: Vec<Value>\""⟩

/-- A concrete scoped import used by the C5 counterexample: its scope `"S"`
is pushed on every registration. -/
def same_scope_fn : ImportedFn Unit :=
  { op_fn := fun _ s => (s, none), name := "f", scope := some "S", sync := true }

/-- Concrete import for the C6 witness: `read` in scope `Stdin`. -/
def c6_fn_stdin : ImportedFn Unit :=
  { op_fn := fun _ s => (s, some (Except.ok (Value.str "Ada"))), name := "read"
  , scope := some "Stdin", sync := true }

/-- Concrete import for the C6 witness: another `read`, in scope `Stdout`. -/
def c6_fn_stdout : ImportedFn Unit :=
  { op_fn := fun _ s => (s, some (Except.ok Value.null)), name := "read"
  , scope := some "Stdout", sync := true }

/-- Concrete registry for the C10 witness, over state `Unit`. -/
def c10_rt_left : Runtime Unit :=
  { imported_names := [⟨"read", some "Stdin", true⟩, ⟨"echo", none, true⟩]
  , scopes := ["Stdin"]
  , registered_ops := [("read", fun _ s => (s, some (Except.ok (Value.str "Ada"))))] }

/-- Concrete registry for the C10 witness, over state `Nat` and with
different registered op behavior, but the same names and scopes. -/
def c10_rt_right : Runtime Nat :=
  { imported_names := [⟨"read", some "Stdin", true⟩, ⟨"echo", none, true⟩]
  , scopes := ["Stdin"]
  , registered_ops := [] }

/-- Decoding one escaped character from the front of an escape stream. -/
theorem unescChars_escChar (c : Char) (cs : List Char) :
    unescChars (escChar c ++ cs) = c :: unescChars cs := by
  by_cases h1 : c = '"'
  · subst h1; simp [escChar, unescChars, unescChar]
  by_cases h2 : c = '\\'
  · subst h2; simp [escChar, unescChars, unescChar]
  by_cases h3 : c = '\n'
  · subst h3; simp [escChar, unescChars, unescChar]
  by_cases h4 : c = '\r'
  · subst h4; simp [escChar, unescChars, unescChar]
  by_cases h5 : c = '\t'
  · subst h5; simp [escChar, unescChars, unescChar]
  · cases cs with
    | nil => simp [escChar, h1, h2, h3, h4, h5, unescChars]
    | cons d rest => simp [escChar, h1, h2, h3, h4, h5, unescChars]

/-- The escape code is uniquely decodable: `unescChars` inverts `escChars`. -/
theorem unescChars_escChars (l : List Char) : unescChars (escChars l) = l := by
  induction l with
  | nil => rfl
  | cons c cs ih => rw [escChars, unescChars_escChar, ih]

/-- Injectivity of character-list escaping. -/
theorem escChars_injective {a b : List Char} (h : escChars a = escChars b) : a = b := by
  have h2 := congrArg unescChars h
  rwa [unescChars_escChars, unescChars_escChars] at h2

/-- Injectivity of Debug string formatting. -/
theorem rustDebugString_injective {s t : String}
    (h : rustDebugString s = rustDebugString t) : s = t := by
  have hd : '"' :: (escChars s.data ++ ['"']) = '"' :: (escChars t.data ++ ['"']) :=
    congrArg String.data h
  have h2 := List.append_cancel_right (List.tail_eq_of_cons_eq hd)
  exact String.ext (escChars_injective h2)

/-- Stub targets of imports with the same name but different scopes are
different strings. -/
theorem stub_target_ne_of_scope_ne (n : String) (sc1 sc2 : Option String) (b1 b2 : Bool)
    (hscope : sc1 ≠ sc2) :
    stub_target ⟨n, sc1, b1⟩ ≠ stub_target ⟨n, sc2, b2⟩ := by
  intro h
  have hd := congrArg String.data h
  cases sc1 with
  | none =>
    cases sc2 with
    | none => exact hscope rfl
    | some s2 =>
      simp only [stub_target, String.data_append] at hd
      have hlen := congrArg List.length hd
      simp [rustDebugString] at hlen
      omega
  | some s1 =>
    cases sc2 with
    | none =>
      simp only [stub_target, String.data_append] at hd
      have hlen := congrArg List.length hd
      simp [rustDebugString] at hlen
      omega
    | some s2 =>
      simp only [stub_target, String.data_append, List.append_assoc] at hd
      have h1 := List.append_cancel_left hd
      have h2 := List.append_cancel_right h1
      have h3 : s1 = s2 := rustDebugString_injective (String.ext h2)
      exact hscope (by rw [h3])

/-- The character loop of `validate_literal` succeeds exactly on lists of
ASCII non-whitespace characters. -/
theorem validate_chars_iff (l : List Char) :
    validate_chars l = true ↔
      ∀ c ∈ l, rustIsAscii c = true ∧ rustIsWhitespace c = false := by
  induction l with
  | nil => simp [validate_chars]
  | cons c rest ih =>
    by_cases ha : rustIsAscii c
    · by_cases hw : rustIsWhitespace c
      · simp [validate_chars, ha, hw]
      · simp [validate_chars, ha, hw, ih]
    · simp [validate_chars, ha]

/-- Left-to-right string accumulation is concatenation of the mapped list. -/
theorem foldl_append_eq_joinAll {α : Type} (f : α → String) :
    ∀ (l : List α) (acc : String),
      l.foldl (fun a x => a ++ f x) acc = acc ++ joinAll (l.map f)
  | [], acc => by simp [joinAll, String.append_empty]
  | x :: xs, acc => by
    rw [List.foldl_cons, foldl_append_eq_joinAll f xs (acc ++ f x), List.map_cons]
    simp [joinAll, String.append_assoc]

/-- C1: with valid attribute arguments and no `async`, the Signature
Transform produces a factory exactly for parameter lists that are empty or
the recognized `args : Vec<Value>` shape combined with return types that are
`Value` or unit; every other parameter list is rejected at build time with a
diagnostic on the parameter-list span, every other return type with a
diagnostic on the return-type span; `Value` returns select the
Value-returning wrapping and unit returns the unit wrapping, both of which
instantiate `create_sync_fn` and therefore carry the uniform
`Vec<Value> -> Result<Value, AnyError>` adapter contract. -/
theorem c1_signature_transform_shapes (input : FnInput) (opts : ImportOptions)
    (hasync : input.isAsync = false)
    (hmeta : parse_meta input.attrs = Except.ok opts) :
    ((∃ kind name scope,
        import_fn input = TransformOutput.factory input.ident kind name scope) ↔
      (input.inputsTokens ∈ legal_inputs ∧
        (input.outputTokens ∈ value_outputs ∨ input.outputTokens ∈ unit_outputs)))
    ∧ (input.inputsTokens ∉ legal_inputs →
        import_fn input = TransformOutput.compileError
          ⟨SpanTarget.inputsSpan input.inputsTokens,
           "Illegal arguments, should be empty or \"args: Vec<Value>\""⟩)
    ∧ (input.inputsTokens ∈ legal_inputs →
        input.outputTokens ∉ value_outputs → input.outputTokens ∉ unit_outputs →
        import_fn input = TransformOutput.compileError
          ⟨SpanTarget.outputSpan input.outputTokens,
           "Illegal return type, should be empty or \"Value\""⟩)
    ∧ (input.inputsTokens ∈ legal_inputs → input.outputTokens ∈ value_outputs →
        import_fn input =
          TransformOutput.factory input.ident AdapterKind.valueReturning
            (opts.name.getD input.ident) opts.scope)
    ∧ (input.inputsTokens ∈ legal_inputs → input.outputTokens ∈ unit_outputs →
        import_fn input =
          TransformOutput.factory input.ident AdapterKind.unitReturning
            (opts.name.getD input.ident) opts.scope) := by
  have hvu : ∀ t : String, t ∈ value_outputs → t ∈ unit_outputs → False := by decide
  refine ⟨?_, ?_, ?_, ?_, ?_⟩
  · constructor
    · intro ⟨kind, name, scope, h⟩
      by_cases hin : input.inputsTokens ∈ legal_inputs
      · by_cases hv : input.outputTokens ∈ value_outputs
        · exact ⟨hin, Or.inl hv⟩
        · by_cases hu : input.outputTokens ∈ unit_outputs
          · exact ⟨hin, Or.inr hu⟩
          · simp [import_fn, hmeta, hin, hasync, hv, hu] at h
      · simp [import_fn, hmeta, hin] at h
    · rintro ⟨hin, hv | hu⟩
      · exact ⟨AdapterKind.valueReturning, opts.name.getD input.ident, opts.scope,
          by simp [import_fn, hmeta, hin, hasync, hv, quote_without_return]⟩
      · have hv : input.outputTokens ∉ value_outputs := fun hv => hvu _ hv hu
        exact ⟨AdapterKind.unitReturning, opts.name.getD input.ident, opts.scope,
          by simp [import_fn, hmeta, hin, hasync, hv, hu, quote_with_return]⟩
  · intro hin; simp [import_fn, hmeta, hin]
  · intro hin hv hu; simp [import_fn, hmeta, hin, hasync, hv, hu]
  · intro hin hv; simp [import_fn, hmeta, hin, hasync, hv, quote_without_return]
  · intro hin hu
    have hv : input.outputTokens ∉ value_outputs := fun hv => hvu _ hv hu
    simp [import_fn, hmeta, hin, hasync, hv, hu, quote_with_return]

/-- Witness for C1: `fn read_from_stdin() -> Value` with
`name = "read", scope = "Stdin"` is accepted and produces the Value-returning
factory under the resolved name. -/
theorem c1_witness :
    import_fn ⟨"read_from_stdin", "", false, "-> Value",
      [NestedMeta.nameValue "name" (Lit.str "read"),
       NestedMeta.nameValue "scope" (Lit.str "Stdin")]⟩ =
      TransformOutput.factory "read_from_stdin" AdapterKind.valueReturning
        "read" (some "Stdin") :=
  (c1_signature_transform_shapes
      ⟨"read_from_stdin", "", false, "-> Value",
        [NestedMeta.nameValue "name" (Lit.str "read"),
         NestedMeta.nameValue "scope" (Lit.str "Stdin")]⟩
      ⟨some "Stdin", some "read"⟩ rfl rfl).2.2.2.1 (by decide) (by decide)

/-- C2: when the native body yields an explicit `Err` result, the adapter
built by `create_sync_fn` propagates that very error value (hence its message)
unchanged through the op boundary, never converting it into `Ok(Null)`. -/
theorem c2_error_propagation {σ : Type}
    (f : List Value → σ → σ × Except AnyError Value)
    (name : String) (scope : Option String) (payload : Value) (args : List Value)
    (s s2 : σ) (e : AnyError)
    (hpayload : get_args payload = some args)
    (hbody : f args s = (s2, Except.error e)) :
    (create_sync_fn f name scope).op_fn payload s = (s2, some (Except.error e)) := by
  simp [create_sync_fn, hpayload, hbody]

/-- Witness for C2: a body failing with `throw!("Expected name!")` reaches
the boundary as that exact error. -/
theorem c2_witness :
    (create_sync_fn
        (fun (_ : List Value) (s : Unit) =>
          (s, Except.error (custom_error "Error" "Expected name!")))
        "read" (some "Stdin")).op_fn (Value.obj [("args", Value.arr [])]) () =
      ((), some (Except.error (custom_error "Error" "Expected name!"))) :=
  c2_error_propagation
    (fun (_ : List Value) (s : Unit) =>
      (s, Except.error (custom_error "Error" "Expected name!")))
    "read" (some "Stdin") (Value.obj [("args", Value.arr [])]) [] () ()
    (custom_error "Error" "Expected name!") rfl rfl

/-- C3: the adapter generated for a unit-returning declaration runs the body
and, whenever the body completes normally, answers `Ok(Value::Null)` whatever
state change (side effect) the body performed. -/
theorem c3_unit_adapter_null {σ : Type}
    (block : List Value → σ → σ × Option AnyError)
    (name : String) (scope : Option String) (payload : Value) (args : List Value)
    (s s2 : σ)
    (hpayload : get_args payload = some args)
    (hbody : block args s = (s2, none)) :
    (quote_with_return_fn block name scope ()).op_fn payload s =
      (s2, some (Except.ok Value.null)) := by
  simp [quote_with_return_fn, create_sync_fn, unit_closure, hpayload, hbody]

/-- Witness for C3: a side-effecting body (incrementing a counter) still
produces `Ok(Null)`, with the side effect visible in the final state. -/
theorem c3_witness :
    (quote_with_return_fn (fun (_ : List Value) (s : Nat) => (s + 1, none))
        "sayHello" (some "Stdout") ()).op_fn
      (Value.obj [("args", Value.arr [Value.str "Ada"])]) 0 =
      (1, some (Except.ok Value.null)) :=
  c3_unit_adapter_null (fun (_ : List Value) (s : Nat) => (s + 1, none))
    "sayHello" (some "Stdout") (Value.obj [("args", Value.arr [Value.str "Ada"])])
    [Value.str "Ada"] 0 1 rfl rfl

/-- C4: the glue source is exactly the fixed header, then one namespace
creation line `window["<scope>"] = {};` per declared scope in declaration
order, then one dispatch stub line per imported function in registration
order, then the fixed footer — so every scope object is created before any
stub is installed. -/
theorem c4_glue_layout {σ : Type} (rt : Runtime σ) :
    importing_finished rt =
      glue_header ++ joinAll (rt.scopes.map scope_line) ++
        joinAll (rt.imported_names.map stub_line) ++ glue_footer := by
  rw [importing_finished]
  rw [foldl_append_eq_joinAll, foldl_append_eq_joinAll]
  simp [String.append_assoc]

/-- Witness for C4: the layout equation at a concrete one-scope,
one-function registry. -/
theorem c4_witness :
    importing_finished
        (⟨[⟨"sayHello", some "Stdout", true⟩], ["Stdout"], []⟩ : Runtime Unit) =
      glue_header ++ joinAll (["Stdout"].map scope_line) ++
        joinAll (([⟨"sayHello", some "Stdout", true⟩] : List ImportedName).map stub_line) ++
        glue_footer :=
  c4_glue_layout (⟨[⟨"sayHello", some "Stdout", true⟩], ["Stdout"], []⟩ : Runtime Unit)

/-- C5 counterexample: importing the same `"S"`-scoped function twice pushes
`"S"` twice — the second registration does not leave the declared-scopes
collection unchanged, refuting the dedup claim. -/
theorem c5_scopes_counterexample :
    (Runtime.«import» (Runtime.new Unit) (fun _ => same_scope_fn)).scopes = ["S"] ∧
    (Runtime.«import» (Runtime.«import» (Runtime.new Unit) (fun _ => same_scope_fn))
        (fun _ => same_scope_fn)).scopes = ["S", "S"] ∧
    (["S", "S"] : List String) ≠ ["S"] :=
  ⟨rfl, rfl, by decide⟩

/-- C5 (amended): the declared-scopes collection is a plain vector in
registration order with no deduplication — every registration of a scoped
function appends its scope, already seen or not, and unscoped registrations
leave the vector unchanged. -/
theorem c5_scopes_append {σ : Type} (rt : Runtime σ) (f : Unit → ImportedFn σ) :
    (Runtime.«import» rt f).scopes =
      rt.scopes ++ (match (f ()).scope with
        | some scope => [scope]
        | none => []) := by
  rw [Runtime.«import»]
  cases h : (f ()).scope <;> simp [h]

/-- Witness for the amended C5: one scoped registration appends its scope. -/
theorem c5_witness :
    (Runtime.«import» (Runtime.new Unit) (fun _ => same_scope_fn)).scopes =
      (Runtime.new Unit).scopes ++ ["S"] :=
  c5_scopes_append (Runtime.new Unit) (fun _ => same_scope_fn)

/-- C6: registration keys ignore the scope — importing two functions with
equal names and different scopes records two engine registrations under the
same bare-name key, while the glue assigns their stubs to different
fully-qualified targets. -/
theorem c6_registration_key_ignores_scope {σ : Type} (rt : Runtime σ)
    (f g : ImportedFn σ) (hname : f.name = g.name) (hscope : f.scope ≠ g.scope) :
    (Runtime.«import» (Runtime.«import» rt (fun _ => f)) (fun _ => g)).registered_ops =
      rt.registered_ops ++ [(f.name, f.op_fn), (f.name, g.op_fn)]
    ∧ stub_target ⟨f.name, f.scope, f.sync⟩ ≠ stub_target ⟨g.name, g.scope, g.sync⟩ := by
  constructor
  · simp [Runtime.«import», ← hname]
  · rw [hname]
    exact stub_target_ne_of_scope_ne g.name f.scope g.scope f.sync g.sync hscope

/-- Witness for C6: two `read` functions, one in `Stdin` and one in
`Stdout`, both register under the key `"read"` while their stub targets
differ. -/
theorem c6_witness :
    (Runtime.«import» (Runtime.«import» (Runtime.new Unit) (fun _ => c6_fn_stdin))
        (fun _ => c6_fn_stdout)).registered_ops =
      (Runtime.new Unit).registered_ops ++
        [(c6_fn_stdin.name, c6_fn_stdin.op_fn), (c6_fn_stdin.name, c6_fn_stdout.op_fn)]
    ∧ stub_target ⟨c6_fn_stdin.name, c6_fn_stdin.scope, c6_fn_stdin.sync⟩ ≠
        stub_target ⟨c6_fn_stdout.name, c6_fn_stdout.scope, c6_fn_stdout.sync⟩ :=
  c6_registration_key_ignores_scope (Runtime.new Unit) c6_fn_stdin c6_fn_stdout rfl
    (by decide)

/-- C7: `get_args` returns the ordered argument sequence exactly when the
payload is an object whose `args` key is bound to an array; in every other
case it takes the `unreachable!` branch (embedded as `none`), a
programmer-error panic rather than a recoverable error — so under the
well-formed-payload precondition that branch is never taken. -/
theorem c7_get_args_characterization (v : Value) (args : List Value) :
    get_args v = some args ↔
      ∃ fields, v = Value.obj fields ∧ mapGet fields "args" = some (Value.arr args) := by
  constructor
  · intro h
    cases v with
    | obj fields =>
      refine ⟨fields, rfl, ?_⟩
      cases hm : mapGet fields "args" with
      | none => simp [get_args, hm] at h
      | some val => cases val <;> simp_all [get_args, hm]
    | null => simp [get_args] at h
    | bool b => simp [get_args] at h
    | num n => simp [get_args] at h
    | str s => simp [get_args] at h
    | arr a => simp [get_args] at h
  · rintro ⟨fields, rfl, hm⟩
    simp [get_args, hm]

/-- Witness for C7: a well-formed payload extracts its argument array. -/
theorem c7_witness :
    get_args (Value.obj [("args", Value.arr [Value.str "Ada"])]) =
      some [Value.str "Ada"] :=
  (c7_get_args_characterization (Value.obj [("args", Value.arr [Value.str "Ada"])])
      [Value.str "Ada"]).mpr ⟨[("args", Value.arr [Value.str "Ada"])], rfl, rfl⟩

/-- C8: a `name` or `scope` string literal passes `validate_literal` exactly
when it is non-empty, all-ASCII and whitespace-free; the attribute parser
accepts such a literal and rejects a violating one at build time with the
`Invalid name` / `Invalid scope` diagnostic spanned at that literal. -/
theorem c8_literal_validation (s : String) :
    (validate_literal s = true ↔
      (s ≠ "" ∧ ∀ c ∈ s.data, rustIsAscii c = true ∧ rustIsWhitespace c = false))
    ∧ ((∃ opts, parse_meta [NestedMeta.nameValue "name" (Lit.str s)] = Except.ok opts) ↔
        validate_literal s = true)
    ∧ ((∃ opts, parse_meta [NestedMeta.nameValue "scope" (Lit.str s)] = Except.ok opts) ↔
        validate_literal s = true)
    ∧ (validate_literal s = false →
        parse_meta [NestedMeta.nameValue "name" (Lit.str s)] =
          Except.error ⟨SpanTarget.litStr s, "Invalid name"⟩)
    ∧ (validate_literal s = false →
        parse_meta [NestedMeta.nameValue "scope" (Lit.str s)] =
          Except.error ⟨SpanTarget.litStr s, "Invalid scope"⟩) := by
  refine ⟨?_, ?_, ?_, ?_, ?_⟩
  · by_cases hs : s = ""
    · subst hs; decide
    · have he : s.isEmpty = false := by
        cases h : s.isEmpty
        · rfl
        · exact absurd ((String.isEmpty_iff s).mp h) hs
      simp [validate_literal, he, hs, validate_chars_iff]
  · by_cases h : validate_literal s <;> simp [parse_meta, parse_meta_loop, h]
  · by_cases h : validate_literal s <;> simp [parse_meta, parse_meta_loop, h]
  · intro h; simp [parse_meta, parse_meta_loop, h]
  · intro h; simp [parse_meta, parse_meta_loop, h]

/-- Witness for C8: the literal `"bad scope"` (contains whitespace) is
rejected with `Invalid scope` at the literal's span. -/
theorem c8_witness :
    parse_meta [NestedMeta.nameValue "scope" (Lit.str "bad scope")] =
      Except.error ⟨SpanTarget.litStr "bad scope", "Invalid scope"⟩ :=
  (c8_literal_validation "bad scope").2.2.2.2 (by decide)

/-- C9: an `async fn` declaration never yields a factory — expansion either
stops at an earlier build diagnostic or, once the parameter list is accepted,
hits the `todo!()` unimplemented-feature panic, a loud build failure rather
than silently dropping the async behavior. -/
theorem c9_async_rejected (input : FnInput) (h : input.isAsync = true) :
    (∀ ident kind name scope,
        import_fn input ≠ TransformOutput.factory ident kind name scope)
    ∧ (∀ opts, parse_meta input.attrs = Except.ok opts →
        input.inputsTokens ∈ legal_inputs →
        import_fn input = TransformOutput.unimplemented) := by
  constructor
  · intro ident kind name scope hcontra
    cases hmeta : parse_meta input.attrs with
    | error e => simp [import_fn, hmeta] at hcontra
    | ok opts =>
      by_cases hin : input.inputsTokens ∈ legal_inputs
      · simp [import_fn, hmeta, hin, h] at hcontra
      · simp [import_fn, hmeta, hin] at hcontra
  · intro opts hmeta hin
    simp [import_fn, hmeta, hin, h]

/-- Witness for C9: `async fn fetch_data()` with an accepted empty parameter
list reaches the `todo!()` condition. -/
theorem c9_witness :
    import_fn ⟨"fetch_data", "", true, "", []⟩ = TransformOutput.unimplemented :=
  (c9_async_rejected ⟨"fetch_data", "", true, "", []⟩ rfl).2 ⟨none, none⟩ rfl
    (by decide)

/-- C10: the glue generator is a function of the registration data alone —
two registries with the same declared scopes and the same ordered
name/scope/sync records (even over different host-state types and with
different registered adapters) generate byte-identical glue source. -/
theorem c10_glue_deterministic {σ τ : Type} (rt1 : Runtime σ) (rt2 : Runtime τ)
    (hscopes : rt1.scopes = rt2.scopes)
    (hnames : rt1.imported_names = rt2.imported_names) :
    importing_finished rt1 = importing_finished rt2 := by
  rw [importing_finished, importing_finished, hscopes, hnames]

/-- Witness for C10: two concrete registries with the same names and scopes
but different state types and op tables produce the same glue text. -/
theorem c10_witness : importing_finished c10_rt_left = importing_finished c10_rt_right :=
  c10_glue_deterministic c10_rt_left c10_rt_right rfl rfl
